import Mathlib

/-!
Shallow embedding of `src/firecrawl/jobscallme_crawl.py` (the JobscallMe
crawler): the date utilities, crawler configuration, stopping policy,
link filter, HTML article extraction and link discovery, together with
theorems settling the specification claims about them.

Python `datetime.datetime` values are modelled as records of calendar
fields compared lexicographically; the permissive `dateutil` parser and
the HTML parser (BeautifulSoup) are external libraries, so they enter
the embedding as function parameters (`parse : String → Option DateTime`,
`parseHtml : String → Option Soup`), with `none` standing for a raised
parse exception.  `datetime.datetime.now()` is likewise passed in as the
`now` parameter.  Python strings are Lean `String`s; the string
operations the source uses (`in`, `split(...)[-1]`, `endswith`, `strip`)
are implemented over the underlying character list so that all
definitions evaluate inside the kernel.
-/

namespace JobscallMe

/-- Model of a Python `datetime.datetime`: calendar and clock fields.
Ordering on these values (see `DateTime.lt`) is lexicographic, matching
CPython's tuple-wise comparison of datetimes. -/
structure DateTime where
  year : Int
  month : Nat
  day : Nat
  hour : Nat
  minute : Nat
  second : Nat
  microsecond : Nat
deriving DecidableEq

/-- Model of a Python `datetime.date`. -/
structure Date where
  year : Int
  month : Nat
  day : Nat
deriving DecidableEq

/-- Python `datetime.date()`: drop the clock fields. -/
def DateTime.date (d : DateTime) : Date := ⟨d.year, d.month, d.day⟩

/-- Gregorian leap-year rule, as used by `calendar.monthrange`. -/
def isLeapYear (y : Int) : Bool :=
  y % 4 == 0 && (y % 100 != 0 || y % 400 == 0)

/-- Number of days in month `m` of year `y` (`calendar.monthrange`). -/
def daysInMonth (y : Int) (m : Nat) : Nat :=
  if m == 2 then (if isLeapYear y then 29 else 28)
  else if m == 4 || m == 6 || m == 9 || m == 11 then 30
  else 31

/-- Python `dt - relativedelta(months=1)`: move one calendar month back,
clamping the day to the length of the destination month (dateutil's
behaviour, e.g. March 31 ↦ February 28/29); clock fields are unchanged. -/
def DateTime.subOneMonth (d : DateTime) : DateTime :=
  let y : Int := if d.month == 1 then d.year - 1 else d.year
  let m : Nat := if d.month == 1 then 12 else d.month - 1
  { d with year := y, month := m, day := min d.day (daysInMonth y m) }

/-- Python `a < b` on datetimes: lexicographic field comparison. -/
def DateTime.lt (a b : DateTime) : Bool :=
  if a.year != b.year then decide (a.year < b.year)
  else if a.month != b.month then decide (a.month < b.month)
  else if a.day != b.day then decide (a.day < b.day)
  else if a.hour != b.hour then decide (a.hour < b.hour)
  else if a.minute != b.minute then decide (a.minute < b.minute)
  else if a.second != b.second then decide (a.second < b.second)
  else decide (a.microsecond < b.microsecond)

/-- Model of the `CrawlerConfig` dataclass after `__post_init__` has run. -/
structure CrawlerConfig where
  base_url : String
  target_date : Option Date
  concurrency : Int
  max_jobs : Int
  target_site_url : String
  excluded_urls : List String
deriving DecidableEq

/-- Constructing a `CrawlerConfig`: the dataclass field assignments
followed by `__post_init__`, which replaces `excluded_urls = None` by the
default list and clamps `concurrency` to `max(1, concurrency)`.  The
source's `__post_init__` contains no `raise`, so construction is total. -/
def mkCrawlerConfig (base_url : String) (target_date : Option Date)
    (concurrency : Int) (max_jobs : Int) (target_site_url : String)
    (excluded_urls : Option (List String)) : CrawlerConfig :=
  { base_url := base_url
    target_date := target_date
    concurrency := max 1 concurrency
    max_jobs := max_jobs
    target_site_url := target_site_url
    excluded_urls := excluded_urls.getD ["/job/jobscallmefb"] }

/-- `DateUtils.is_job_too_old`: parse the timestamp, compare against
`now - relativedelta(months=1)`; a parse failure is caught and yields
`False`. -/
def is_job_too_old (parse : String → Option DateTime) (now : DateTime)
    (time_value : String) : Bool :=
  match parse time_value with
  | none => false
  | some job_date => DateTime.lt job_date now.subOneMonth

/-- `JobscallMeCrawler._should_stop_crawling`, returning the pair
`(stop_crawling, matches_criteria)`.  In target-date mode the Python
guard `if job_date` is truthiness: `None` is falsy, every real date is
truthy. -/
def should_stop_crawling (cfg : CrawlerConfig)
    (parse : String → Option DateTime) (now : DateTime)
    (time_value : String) (job_date : Option Date) : Bool × Bool :=
  match cfg.target_date with
  | some target =>
      let matched : Bool :=
        match job_date with
        | some d => decide (d = target)
        | none => false
      (false, matched)
  | none =>
      if is_job_too_old parse now time_value then (true, false)
      else (false, true)

/-- The date-handling tail of `JobscallMeCrawler.scrape_job_page`
(lines 431–448), returning `(stop_crawling, matches_target_date)`.
Python's `if processed_result.get('time_value'):` is a truthiness test,
so both a missing value and the empty string take the fallback branch;
a parse exception inside the `try` takes the `except` branch.  Both
fallbacks yield `(False, target_date is None)`. -/
def scrape_date_logic (cfg : CrawlerConfig)
    (parse : String → Option DateTime) (now : DateTime)
    (time_value : Option String) : Bool × Bool :=
  match time_value with
  | some tv =>
      if tv = "" then (false, cfg.target_date.isNone)
      else
        match parse tv with
        | some dt => should_stop_crawling cfg parse now tv (some dt.date)
        | none => (false, cfg.target_date.isNone)
  | none => (false, cfg.target_date.isNone)

/-- Python `pat in s` on strings: some contiguous character slice of `s`
equals `pat` (true at every position for the empty pattern, as in
Python). -/
def strContains (s pat : String) : Bool :=
  (List.range (s.length + 1)).any (fun i => pat.data.isPrefixOf (s.data.drop i))

/-- Python `s.endswith(pat)`. -/
def strEndsWith (s pat : String) : Bool :=
  pat.data.isSuffixOf s.data

/-- Python `s.startswith(pat)`. -/
def strStartsWith (s pat : String) : Bool :=
  pat.data.isPrefixOf s.data

/-- Python `s.strip()`: drop whitespace from both ends. -/
def pyStrip (s : String) : String :=
  ⟨((s.data.dropWhile Char.isWhitespace).reverse.dropWhile Char.isWhitespace).reverse⟩

/-- One step of Python's left-to-right scan of `str.split('/job/')`:
the character list after the first occurrence of the five-character
marker `/job/`, or `none` when the marker does not occur.  When the
marker matches at the head, the whole match (head plus four more
characters) is consumed. -/
def afterJobMarker : List Char → Option (List Char)
  | [] => none
  | c :: rest =>
      if ['/', 'j', 'o', 'b', '/'].isPrefixOf (c :: rest) then
        some (rest.drop 4)
      else afterJobMarker rest

/-- Fuel-bounded iteration of `afterJobMarker`; repeatedly dropping
through the first marker occurrence yields the text after the last
(left-to-right, non-overlapping) occurrence, which is exactly Python's
`s.split('/job/')[-1]`. -/
def jobPartAux : Nat → List Char → List Char
  | 0, s => s
  | fuel + 1, s =>
      match afterJobMarker s with
      | none => s
      | some s' => jobPartAux fuel s'

/-- Python `link.split('/job/')[-1]`.  `s.length` steps of fuel are
enough: each successful `afterJobMarker` step strictly shortens the
list (`afterJobMarker_length`), which `jobPart_no_marker` confirms by
showing no marker remains in the result. -/
def jobPart (s : List Char) : List Char :=
  jobPartAux s.length s

/-- `JobscallMeCrawler.filter_job_links`: keep links containing `/job/`,
skip any link containing an excluded substring (`continue`), then keep
the link when the remainder after the marker is non-empty, has no
further `/`, the link does not end at the marker, and the link contains
neither `/job/category/` nor `/job/tag/`. -/
def filter_job_links (excluded_urls : List String) (all_links : List String) :
    List String :=
  all_links.filter (fun link =>
    if strContains link "/job/" then
      if excluded_urls.any (fun excluded_url => strContains link excluded_url) then
        false
      else
        let job_part : String := ⟨jobPart link.data⟩
        decide (job_part ≠ "") &&
        !strContains job_part "/" &&
        !strEndsWith link "/job/" &&
        !strContains link "/job/category/" &&
        !strContains link "/job/tag/"
    else false)

/-- Model of a `<time>` element found by BeautifulSoup inside the
article: its `datetime` attribute (absent when the tag has none — note
Python's `tag.get('datetime', default)` falls back only when the key is
missing, not when its value is empty) and its visible text. -/
structure TimeTag where
  datetimeAttr : Option String
  text : String
deriving DecidableEq

/-- Model of the first `<article>` element of a parsed document:
`serialized` is `str(article)`, `timeTag` the first `<time>` element in
its subtree if any. -/
structure ArticleTag where
  serialized : String
  timeTag : Option TimeTag
deriving DecidableEq

/-- Model of a parsed BeautifulSoup document, exposing exactly what
`extract_article_content` queries: `soup.find('article')`. -/
structure Soup where
  article : Option ArticleTag
deriving DecidableEq

/-- Result dictionary of `HtmlProcessor.extract_article_content`.
`job_date` holds the parsed date value (the source stores its
`isoformat()` string; the rendering is not modelled).  In the
exception branch the source returns a dictionary without a
`'job_date'` key, which reads back as `None` via `.get`, i.e. `none`
here. -/
structure ExtractResult where
  html_content : Option String
  article_found : Bool
  time_value : Option String
  job_date : Option Date
deriving DecidableEq

/-- `HtmlProcessor.extract_article_content`.  `parseHtml` stands for
`BeautifulSoup(html_content, 'html.parser')` (`none` = the constructor
raised, caught by the `except` branch); `parse` stands for
`dateutil.parser.parse` (`none` = raised, caught by the inner
`try`/`except pass`). -/
def extract_article_content (parseHtml : String → Option Soup)
    (parse : String → Option DateTime) (html_content : String) : ExtractResult :=
  match parseHtml html_content with
  | none =>
      { html_content := some html_content, article_found := false,
        time_value := none, job_date := none }
  | some soup =>
      match soup.article with
      | none =>
          { html_content := some html_content, article_found := false,
            time_value := none, job_date := none }
      | some article =>
          match article.timeTag with
          | none =>
              { html_content := some article.serialized, article_found := true,
                time_value := none, job_date := none }
          | some time_tag =>
              let time_value : String :=
                match time_tag.datetimeAttr with
                | some v => v
                | none => pyStrip time_tag.text
              { html_content := some article.serialized, article_found := true,
                time_value := some time_value,
                job_date := (parse time_value).map DateTime.date }

/-- Model of one element of `map_result.links` in
`JobscallMeCrawler.extract_links`: `url` is `none` when the object has
no `url` attribute, `some ""` models a present-but-falsy value. -/
structure LinkObj where
  url : Option String
deriving DecidableEq

/-- The response shapes `extract_links` tolerates: an object exposing a
`links` attribute, a dictionary (an association list of string keys to
link lists), or a bare list. -/
inductive MapResult where
  | obj (links : List LinkObj)
  | dict (entries : List (String × List String))
  | arr (links : List String)
deriving DecidableEq

/-- Python truthiness of a mapping response, as tested by
`if not map_result:` in `crawl_jobscall_me`: a response object is
truthy; a dictionary or list is truthy iff non-empty. -/
def MapResult.isTruthy : MapResult → Bool
  | .obj _ => true
  | .dict entries => !entries.isEmpty
  | .arr links => !links.isEmpty

/-- Python `key in d` / `d[key]` on the modelled dictionary. -/
def pyDictGet (entries : List (String × List String)) (key : String) :
    Option (List String) :=
  (entries.find? (fun e => decide (e.1 = key))).map Prod.snd

/-- `JobscallMeCrawler.extract_links`: the object branch appends each
link object's `url` when the attribute exists and is truthy; the
dictionary branch takes the value of the first key present among
`links`, `urls`, `data`, `results` (falling back to the empty list);
the bare-list branch returns the list itself. -/
def extract_links : MapResult → List String
  | .obj links =>
      links.filterMap (fun link_result =>
        match link_result.url with
        | some u => if u = "" then none else some u
        | none => none)
  | .dict entries =>
      match pyDictGet entries "links" with
      | some v => v
      | none =>
          match pyDictGet entries "urls" with
          | some v => v
          | none =>
              match pyDictGet entries "data" with
              | some v => v
              | none =>
                  match pyDictGet entries "results" with
                  | some v => v
                  | none => []
  | .arr links => links

/-- `JobscallMeCrawler.crawl_jobscall_me`.  `map_outcome` is the result
of `map_website(target_site_url)`: `none` when the mapping call raised
(unreachable service — `map_website` catches the exception and returns
`None`).  `crawl_jobscall_me` then returns `None` when the outcome is
`None` or falsy (`if not map_result:`), else the filtered link list. -/
def crawl_jobscall_me (cfg : CrawlerConfig) (map_outcome : Option MapResult) :
    Option (List String) :=
  match map_outcome with
  | none => none
  | some map_result =>
      if map_result.isTruthy then
        some (filter_job_links cfg.excluded_urls (extract_links map_result))
      else none

/-- Specification-side predicate for claim C5, read literally from the
claim's words (for refinement comparison with `filter_job_links`, not
translated from the source): the URL contains the marker `/job/`, the
remainder after the marker (Python's `split('/job/')[-1]`) is a single
non-empty path segment with no further `/`, the URL does not end
exactly at the marker, the remainder is not a `category` or `tag`
sub-path, and no substring from the exclusion list occurs in the URL. -/
def specJobLinkOk (excluded_urls : List String) (link : String) : Bool :=
  strContains link "/job/" &&
  (let remainder : String := ⟨jobPart link.data⟩
   decide (remainder ≠ "") &&
   !strContains remainder "/" &&
   !strEndsWith link "/job/" &&
   !(strStartsWith remainder "category/" || strStartsWith remainder "tag/") &&
   !(excluded_urls.any (fun excluded_url => strContains link excluded_url)))

/-- Amended keep-predicate for claim C5, matching the source: the
`category`/`tag` exclusions are substring tests `'/job/category/' in
link` and `'/job/tag/' in link` on the whole URL, not conditions on the
remainder. -/
def amendedJobLinkOk (excluded_urls : List String) (link : String) : Bool :=
  strContains link "/job/" &&
  (let remainder : String := ⟨jobPart link.data⟩
   decide (remainder ≠ "") &&
   !strContains remainder "/" &&
   !strEndsWith link "/job/" &&
   !strContains link "/job/category/" &&
   !strContains link "/job/tag/" &&
   !(excluded_urls.any (fun excluded_url => strContains link excluded_url)))

/-! Concrete fixtures used by the witness theorems. -/

def nowFix : DateTime := ⟨2024, 5, 10, 12, 0, 0, 0⟩

def oldFix : DateTime := ⟨2024, 1, 1, 8, 30, 0, 0⟩

def mayFix : DateTime := ⟨2024, 5, 1, 9, 0, 0, 0⟩

def cfgRolling : CrawlerConfig :=
  mkCrawlerConfig "http://localhost:3002" none 5 500 "https://www.jobscall.me/job" none

def cfgRollingAlt : CrawlerConfig :=
  mkCrawlerConfig "http://fc:3002" none 9 100 "https://www.jobscall.me/job" (some [])

def cfgTarget : CrawlerConfig :=
  mkCrawlerConfig "http://localhost:3002" (some ⟨2024, 5, 1⟩) 5 500
    "https://www.jobscall.me/job" none

def parseCutFix : String → Option DateTime :=
  fun s => if s = "2024-01-01" then some oldFix else some nowFix.subOneMonth

def parseCutAltFix : String → Option DateTime :=
  fun s => if s = "2024-01-01" then some oldFix else none

def parseMixedFix : String → Option DateTime :=
  fun s => if s = "not-a-date" then none else some mayFix

def parseFailFix : String → Option DateTime := fun _ => none

def timeAttrFix : TimeTag := ⟨some "2024-05-01T09:00:00+08:00", "1 May 2024"⟩

def articleFix : ArticleTag := ⟨"<article>posting</article>", some timeAttrFix⟩

def parseHtmlArticleFix : String → Option Soup :=
  fun s => if s = "<broken" then none else some ⟨some articleFix⟩

def parseHtmlPlainFix : String → Option Soup :=
  fun s => if s = "<broken" then none else some ⟨none⟩

def mapOkFix : MapResult := .arr ["https://www.jobscall.me/job/abc"]

def mapEmptyFix : MapResult := .dict []

theorem DateTime.lt_irrefl (a : DateTime) : DateTime.lt a a = false := by
  simp [DateTime.lt]

theorem afterJobMarker_length :
    ∀ s s' : List Char, afterJobMarker s = some s' → s'.length < s.length := by
  intro s
  induction s with
  | nil => intro s' h; simp [afterJobMarker] at h
  | cons c rest ih =>
      intro s' h
      unfold afterJobMarker at h
      by_cases hp : (['/', 'j', 'o', 'b', '/'].isPrefixOf (c :: rest)) = true
      · rw [if_pos hp] at h
        cases h
        calc (rest.drop 4).length ≤ rest.length := by
              simp [List.length_drop]
          _ < (c :: rest).length := by simp
      · rw [if_neg hp] at h
        exact Nat.lt_trans (ih s' h) (by simp)

theorem jobPartAux_no_marker :
    ∀ (fuel : Nat) (s : List Char), s.length ≤ fuel →
      afterJobMarker (jobPartAux fuel s) = none := by
  intro fuel
  induction fuel with
  | zero =>
      intro s hs
      have : s = [] := List.eq_nil_of_length_eq_zero (Nat.le_zero.mp hs)
      subst this
      simp [jobPartAux, afterJobMarker]
  | succ n ih =>
      intro s hs
      unfold jobPartAux
      cases h : afterJobMarker s with
      | none => exact h
      | some s' =>
          exact ih s' (Nat.le_of_lt_succ
            (Nat.lt_of_lt_of_le (afterJobMarker_length s s' h) hs))

theorem jobPart_no_marker (s : List Char) :
    afterJobMarker (jobPart s) = none :=
  jobPartAux_no_marker s.length s (Nat.le_refl _)

/-- C1: in RollingWindow mode (no target date configured), for a
parseable posting timestamp `t` the stopping policy returns
`(haltFurtherWork, accept) = (true, false)` exactly when `t` is
strictly older than `now` minus one calendar month, and `(false, true)`
exactly when `t` is at or after that cutoff; a timestamp parsing to
exactly the cutoff is accepted and does not halt, and the
`scrape_job_page` date logic defers to this verdict. -/
theorem rolling_cutoff_exclusive (cfg : CrawlerConfig)
    (parse : String → Option DateTime) (now : DateTime) (tv tvb : String)
    (t : DateTime) (jd : Option Date)
    (hmode : cfg.target_date = none) (htv : tv ≠ "")
    (hparse : parse tv = some t) (hcut : parse tvb = some now.subOneMonth) :
    (should_stop_crawling cfg parse now tv jd = (true, false) ↔
      DateTime.lt t now.subOneMonth = true) ∧
    (should_stop_crawling cfg parse now tv jd = (false, true) ↔
      DateTime.lt t now.subOneMonth = false) ∧
    scrape_date_logic cfg parse now (some tv) =
      should_stop_crawling cfg parse now tv (some t.date) ∧
    should_stop_crawling cfg parse now tvb jd = (false, true) := by
  have hold : is_job_too_old parse now tv = DateTime.lt t now.subOneMonth := by
    simp [is_job_too_old, hparse]
  have hb : is_job_too_old parse now tvb = false := by
    simp [is_job_too_old, hcut, DateTime.lt_irrefl]
  refine ⟨?_, ?_, ?_, ?_⟩
  · unfold should_stop_crawling
    rw [hmode, hold]
    cases h : DateTime.lt t now.subOneMonth <;> simp
  · unfold should_stop_crawling
    rw [hmode, hold]
    cases h : DateTime.lt t now.subOneMonth <;> simp
  · simp [scrape_date_logic, htv, hparse]
  · unfold should_stop_crawling
    rw [hmode, hb]
    simp

/-- Witness for C1: `now = 2024-05-10 12:00`, so the cutoff is
`2024-04-10 12:00`; a job from `2024-01-01` halts and is rejected, and
a timestamp parsing to exactly the cutoff is accepted without halting. -/
theorem rolling_cutoff_exclusive_witness :
    cfgRolling.target_date = none ∧ ("2024-01-01" : String) ≠ "" ∧
    parseCutFix "2024-01-01" = some oldFix ∧
    parseCutFix "cut" = some nowFix.subOneMonth ∧
    ((should_stop_crawling cfgRolling parseCutFix nowFix "2024-01-01" none = (true, false) ↔
       DateTime.lt oldFix nowFix.subOneMonth = true) ∧
     (should_stop_crawling cfgRolling parseCutFix nowFix "2024-01-01" none = (false, true) ↔
       DateTime.lt oldFix nowFix.subOneMonth = false) ∧
     scrape_date_logic cfgRolling parseCutFix nowFix (some "2024-01-01") =
       should_stop_crawling cfgRolling parseCutFix nowFix "2024-01-01" (some oldFix.date) ∧
     should_stop_crawling cfgRolling parseCutFix nowFix "cut" none = (false, true)) :=
  ⟨rfl, by decide, rfl, rfl,
   rolling_cutoff_exclusive cfgRolling parseCutFix nowFix "2024-01-01" "cut" oldFix none
     rfl (by decide) rfl rfl⟩

/-- C2: in TargetDate mode the stopping policy never halts
(`haltFurtherWork = false` for every input) and accepts exactly the
items whose parsed posting date equals the configured target date; an
absent, empty or unparseable posting date is not accepted. -/
theorem target_date_exhaustive (cfg : CrawlerConfig)
    (parse : String → Option DateTime) (now : DateTime) (tv s u : String)
    (jd : Option Date) (target : Date) (dt : DateTime)
    (hmode : cfg.target_date = some target) (hs : s ≠ "")
    (hdt : parse s = some dt) (hu : parse u = none) :
    (should_stop_crawling cfg parse now tv jd).1 = false ∧
    ((should_stop_crawling cfg parse now tv jd).2 = true ↔ jd = some target) ∧
    scrape_date_logic cfg parse now none = (false, false) ∧
    scrape_date_logic cfg parse now (some "") = (false, false) ∧
    scrape_date_logic cfg parse now (some u) = (false, false) ∧
    (scrape_date_logic cfg parse now (some s)).1 = false ∧
    ((scrape_date_logic cfg parse now (some s)).2 = true ↔ dt.date = target) := by
  have hnone : cfg.target_date.isNone = false := by rw [hmode]; rfl
  have key : ∀ (tv' : String) (jd' : Option Date),
      should_stop_crawling cfg parse now tv' jd' =
        (false, match jd' with | some d => decide (d = target) | none => false) := by
    intro tv' jd'
    unfold should_stop_crawling
    rw [hmode]
  refine ⟨?_, ?_, ?_, ?_, ?_, ?_, ?_⟩
  · simp [key]
  · cases jd <;> simp [key]
  · simp [scrape_date_logic, hnone]
  · simp [scrape_date_logic, hnone]
  · rcases eq_or_ne u "" with h | h <;> simp [scrape_date_logic, h, hu, hnone]
  · simp [scrape_date_logic, hs, hdt, key]
  · simp [scrape_date_logic, hs, hdt, key]

/-- Witness for C2: target date `2024-05-01`; a job parsed to
`2024-05-01 09:00` is accepted, an unparseable one is not, and no input
halts the run. -/
theorem target_date_exhaustive_witness :
    cfgTarget.target_date = some ⟨2024, 5, 1⟩ ∧ ("2024-05-01" : String) ≠ "" ∧
    parseMixedFix "2024-05-01" = some mayFix ∧
    parseMixedFix "not-a-date" = none ∧
    ((should_stop_crawling cfgTarget parseMixedFix nowFix "any" (some ⟨2024, 5, 1⟩)).1 = false ∧
     ((should_stop_crawling cfgTarget parseMixedFix nowFix "any" (some ⟨2024, 5, 1⟩)).2 = true ↔
       (some ⟨2024, 5, 1⟩ : Option Date) = some ⟨2024, 5, 1⟩) ∧
     scrape_date_logic cfgTarget parseMixedFix nowFix none = (false, false) ∧
     scrape_date_logic cfgTarget parseMixedFix nowFix (some "") = (false, false) ∧
     scrape_date_logic cfgTarget parseMixedFix nowFix (some "not-a-date") = (false, false) ∧
     (scrape_date_logic cfgTarget parseMixedFix nowFix (some "2024-05-01")).1 = false ∧
     ((scrape_date_logic cfgTarget parseMixedFix nowFix (some "2024-05-01")).2 = true ↔
       mayFix.date = ⟨2024, 5, 1⟩)) :=
  ⟨rfl, by decide, rfl, rfl,
   target_date_exhaustive cfgTarget parseMixedFix nowFix "any" "2024-05-01" "not-a-date"
     (some ⟨2024, 5, 1⟩) ⟨2024, 5, 1⟩ mayFix rfl (by decide) rfl rfl⟩

/-- C3: an item with an absent, empty or unparseable posting timestamp
never produces `haltFurtherWork = true` under any configuration, and
under RollingWindow mode such an item is accepted. -/
theorem unknown_age_never_halts (cfg cfgr : CrawlerConfig)
    (parse : String → Option DateTime) (now : DateTime) (s : String)
    (jd : Option Date) (hs : parse s = none)
    (hroll : cfgr.target_date = none) :
    scrape_date_logic cfg parse now none = (false, cfg.target_date.isNone) ∧
    scrape_date_logic cfg parse now (some "") = (false, cfg.target_date.isNone) ∧
    scrape_date_logic cfg parse now (some s) = (false, cfg.target_date.isNone) ∧
    (should_stop_crawling cfg parse now s jd).1 = false ∧
    scrape_date_logic cfgr parse now none = (false, true) ∧
    scrape_date_logic cfgr parse now (some "") = (false, true) ∧
    scrape_date_logic cfgr parse now (some s) = (false, true) := by
  have hfst : (should_stop_crawling cfg parse now s jd).1 = false := by
    unfold should_stop_crawling
    cases h : cfg.target_date with
    | some target => simp
    | none => simp [is_job_too_old, hs]
  refine ⟨?_, ?_, ?_, hfst, ?_, ?_, ?_⟩
  · simp [scrape_date_logic]
  · simp [scrape_date_logic]
  · rcases eq_or_ne s "" with h | h <;> simp [scrape_date_logic, h, hs]
  · simp [scrape_date_logic, hroll]
  · simp [scrape_date_logic, hroll]
  · rcases eq_or_ne s "" with h | h <;> simp [scrape_date_logic, h, hs, hroll]

/-- Witness for C3: a parser that fails on everything; the rolling and
target configurations both never halt, and the rolling one accepts. -/
theorem unknown_age_never_halts_witness :
    parseFailFix "garbage" = none ∧ cfgRolling.target_date = none ∧
    (scrape_date_logic cfgTarget parseFailFix nowFix none = (false, cfgTarget.target_date.isNone) ∧
     scrape_date_logic cfgTarget parseFailFix nowFix (some "") = (false, cfgTarget.target_date.isNone) ∧
     scrape_date_logic cfgTarget parseFailFix nowFix (some "garbage") = (false, cfgTarget.target_date.isNone) ∧
     (should_stop_crawling cfgTarget parseFailFix nowFix "garbage" none).1 = false ∧
     scrape_date_logic cfgRolling parseFailFix nowFix none = (false, true) ∧
     scrape_date_logic cfgRolling parseFailFix nowFix (some "") = (false, true) ∧
     scrape_date_logic cfgRolling parseFailFix nowFix (some "garbage") = (false, true)) :=
  ⟨rfl, rfl,
   unknown_age_never_halts cfgTarget cfgRolling parseFailFix nowFix "garbage" none rfl rfl⟩

/-- Counterexample to C4: constructing `CrawlerConfig` with
`concurrency = 0 < 1` is not rejected — `CrawlerConfig.__post_init__`
raises no error (the source defines no `ConfigError` at all) and yields
a usable configuration with `concurrency = 1`, identical to the one
built with `concurrency = 1`. -/
theorem config_low_concurrency_not_rejected :
    (mkCrawlerConfig "http://localhost:3002" none 0 500
      "https://www.jobscall.me/job" none).concurrency = 1 ∧
    mkCrawlerConfig "http://localhost:3002" none 0 500
      "https://www.jobscall.me/job" none =
      mkCrawlerConfig "http://localhost:3002" none 1 500
        "https://www.jobscall.me/job" none :=
  ⟨by decide, by decide⟩

/-- C4 amended: for every concurrency below 1, construction does not
fail; `__post_init__` clamps the value, so the configuration is built
with `concurrency = 1`. -/
theorem config_clamps_low_concurrency (base_url : String)
    (target_date : Option Date) (c : Int) (max_jobs : Int) (site : String)
    (ex : Option (List String)) (h : c < 1) :
    (mkCrawlerConfig base_url target_date c max_jobs site ex).concurrency = 1 := by
  show max 1 c = 1
  exact max_eq_left h.le

/-- Witness for the amended C4 at `concurrency = -3`. -/
theorem config_clamps_low_concurrency_witness :
    (-3 : Int) < 1 ∧
    (mkCrawlerConfig "http://localhost:3002" none (-3) 500
      "https://www.jobscall.me/job" none).concurrency = 1 :=
  ⟨by decide,
   config_clamps_low_concurrency "http://localhost:3002" none (-3) 500
     "https://www.jobscall.me/job" none (by decide)⟩

/-- C10: `CrawlerConfig` construction is total and establishes the
invariants: the resulting concurrency is `max 1 c` (hence at least 1),
an absent exclusion list becomes the default `['/job/jobscallmefb']`,
and an explicit exclusion list is kept unchanged. -/
theorem config_construction_invariants (base_url : String)
    (target_date : Option Date) (c : Int) (max_jobs : Int) (site : String)
    (ex : Option (List String)) (l : List String) :
    (mkCrawlerConfig base_url target_date c max_jobs site ex).concurrency = max 1 c ∧
    1 ≤ (mkCrawlerConfig base_url target_date c max_jobs site ex).concurrency ∧
    (mkCrawlerConfig base_url target_date c max_jobs site none).excluded_urls =
      ["/job/jobscallmefb"] ∧
    (mkCrawlerConfig base_url target_date c max_jobs site (some l)).excluded_urls = l :=
  ⟨rfl, le_max_left 1 c, rfl, rfl⟩

/-- Counterexample to C5: the URL `https://a/job/category/job/x`
satisfies every condition of the claim's keep-predicate — its remainder
after the marker is the single non-empty segment `x`, which is no
`category`/`tag` sub-path, and no exclusion substring occurs — yet
`filter_job_links` drops it, because the source tests
`'/job/category/' in link` against the whole URL. -/
theorem filter_not_spec_characterized :
    filter_job_links ["/job/jobscallmefb"] ["https://a/job/category/job/x"] = [] ∧
    specJobLinkOk ["/job/jobscallmefb"] "https://a/job/category/job/x" = true :=
  ⟨by decide, by decide⟩

/-- C5 amended: `filter_job_links` returns exactly the sublist, in
first-seen order and without collapsing duplicates, of the URLs that
satisfy the source's keep-predicate `amendedJobLinkOk`: the marker
`/job/` occurs, the remainder after it is a single non-empty segment,
the URL does not end at the marker, contains neither `/job/category/`
nor `/job/tag/` anywhere, and contains no exclusion-list substring. -/
theorem filter_job_links_characterization (excluded_urls : List String)
    (all_links : List String) :
    filter_job_links excluded_urls all_links =
      all_links.filter (amendedJobLinkOk excluded_urls) ∧
    (filter_job_links excluded_urls all_links).Sublist all_links := by
  constructor
  · unfold filter_job_links
    apply List.filter_congr
    intro link _
    unfold amendedJobLinkOk
    by_cases h1 : strContains link "/job/" = true
    · by_cases h2 :
          (excluded_urls.any (fun excluded_url => strContains link excluded_url)) = true
      · simp [h1, h2]
      · simp [h1, h2]
    · simp [h1]
  · unfold filter_job_links
    exact List.filter_sublist _

/-- C6: `extract_article_content` falls back to the full input body
with `article_found = false` and `time_value = none`, both when parsing
itself fails and when the parsed document has no `<article>` tag; being
a total function of its inputs, it raises nothing. -/
theorem extract_fallback_shape (parseHtml : String → Option Soup)
    (parse : String → Option DateTime) (bad html : String) (soup : Soup)
    (hbad : parseHtml bad = none) (hsoup : parseHtml html = some soup)
    (hart : soup.article = none) :
    extract_article_content parseHtml parse bad =
      { html_content := some bad, article_found := false,
        time_value := none, job_date := none } ∧
    extract_article_content parseHtml parse html =
      { html_content := some html, article_found := false,
        time_value := none, job_date := none } := by
  constructor
  · simp [extract_article_content, hbad]
  · simp [extract_article_content, hsoup, hart]

/-- Witness for C6: a parser that fails on `"<broken"` and finds no
article elsewhere. -/
theorem extract_fallback_shape_witness :
    parseHtmlPlainFix "<broken" = none ∧
    parseHtmlPlainFix "<p>x</p>" = some ⟨none⟩ ∧
    (extract_article_content parseHtmlPlainFix parseFailFix "<broken" =
      { html_content := some "<broken", article_found := false,
        time_value := none, job_date := none } ∧
     extract_article_content parseHtmlPlainFix parseFailFix "<p>x</p>" =
      { html_content := some "<p>x</p>", article_found := false,
        time_value := none, job_date := none }) :=
  ⟨rfl, rfl,
   extract_fallback_shape parseHtmlPlainFix parseFailFix "<broken" "<p>x</p>" ⟨none⟩
     rfl rfl rfl⟩

/-- C7: on a document whose parsed tree contains an `<article>` with a
`<time>` element, `extract_article_content` reports
`article_found = true`, keeps the serialized article as the content,
and recovers the exact timestamp string — the `datetime` attribute when
present, otherwise the stripped visible text. -/
theorem extract_time_preference (parseHtml : String → Option Soup)
    (parse : String → Option DateTime) (html : String) (soup : Soup)
    (article : ArticleTag) (time_tag : TimeTag)
    (hsoup : parseHtml html = some soup) (hart : soup.article = some article)
    (htime : article.timeTag = some time_tag) :
    (extract_article_content parseHtml parse html).article_found = true ∧
    (extract_article_content parseHtml parse html).time_value =
      some (time_tag.datetimeAttr.getD (pyStrip time_tag.text)) ∧
    (extract_article_content parseHtml parse html).html_content =
      some article.serialized := by
  simp only [extract_article_content, hsoup, hart, htime]
  cases h : time_tag.datetimeAttr <;> simp [h]

/-- Witness for C7: an article with a `<time>` tag carrying a
machine-readable `datetime` attribute, which is preferred over the
visible text. -/
theorem extract_time_preference_witness :
    parseHtmlArticleFix "<article>posting</article>" = some ⟨some articleFix⟩ ∧
    articleFix.timeTag = some timeAttrFix ∧
    ((extract_article_content parseHtmlArticleFix parseFailFix
        "<article>posting</article>").article_found = true ∧
     (extract_article_content parseHtmlArticleFix parseFailFix
        "<article>posting</article>").time_value =
       some (timeAttrFix.datetimeAttr.getD (pyStrip timeAttrFix.text)) ∧
     (extract_article_content parseHtmlArticleFix parseFailFix
        "<article>posting</article>").html_content =
       some articleFix.serialized) :=
  ⟨rfl, rfl,
   extract_time_preference parseHtmlArticleFix parseFailFix
     "<article>posting</article>" ⟨some articleFix⟩ articleFix timeAttrFix rfl rfl rfl⟩

/-- C8: link discovery returns `None` (the `DiscoveryError` outcome,
which makes the run abort before any page is dispatched) when the
mapping call raised or when it produced an empty (falsy) link
collection; otherwise it returns exactly the filtered candidate list. -/
theorem discovery_failure_iff (cfg : CrawlerConfig) (mo mo' : Option MapResult)
    (r r' : MapResult) (hr : mo = some r) (htrue : r.isTruthy = true)
    (hr' : mo' = some r') (hfalse : r'.isTruthy = false) :
    crawl_jobscall_me cfg none = none ∧
    crawl_jobscall_me cfg mo' = none ∧
    crawl_jobscall_me cfg mo =
      some (filter_job_links cfg.excluded_urls (extract_links r)) := by
  subst hr hr'
  refine ⟨rfl, ?_, ?_⟩
  · simp [crawl_jobscall_me, hfalse]
  · simp [crawl_jobscall_me, htrue]

/-- Witness for C8: a bare link list is truthy and flows through the
filter; an empty dictionary is falsy and yields the failure outcome. -/
theorem discovery_failure_iff_witness :
    mapOkFix.isTruthy = true ∧ mapEmptyFix.isTruthy = false ∧
    (crawl_jobscall_me cfgRolling none = none ∧
     crawl_jobscall_me cfgRolling (some mapEmptyFix) = none ∧
     crawl_jobscall_me cfgRolling (some mapOkFix) =
       some (filter_job_links cfgRolling.excluded_urls (extract_links mapOkFix))) :=
  ⟨rfl, rfl,
   discovery_failure_iff cfgRolling (some mapOkFix) (some mapEmptyFix)
     mapOkFix mapEmptyFix rfl rfl rfl rfl⟩

/-- C9: the stopping policy is a deterministic function of
`(mode, postedAt, now)`: two evaluations whose configurations agree on
`target_date`, whose parsers agree on the given timestamp string, and
which share `now`, the timestamp and the posting date, produce the same
verdict — no other configuration field or parser value influences the
result. -/
theorem policy_deterministic (cfg cfg' : CrawlerConfig)
    (parse parse' : String → Option DateTime) (now : DateTime)
    (tv : String) (jd : Option Date)
    (hcfg : cfg.target_date = cfg'.target_date)
    (hparse : parse tv = parse' tv) :
    should_stop_crawling cfg parse now tv jd =
      should_stop_crawling cfg' parse' now tv jd := by
  unfold should_stop_crawling is_job_too_old
  rw [hcfg, hparse]

/-- Witness for C9: two configurations differing in every field except
`target_date`, and two parsers agreeing only on the evaluated string,
give the same verdict. -/
theorem policy_deterministic_witness :
    cfgRolling.target_date = cfgRollingAlt.target_date ∧
    parseCutFix "2024-01-01" = parseCutAltFix "2024-01-01" ∧
    should_stop_crawling cfgRolling parseCutFix nowFix "2024-01-01" none =
      should_stop_crawling cfgRollingAlt parseCutAltFix nowFix "2024-01-01" none :=
  ⟨rfl, rfl,
   policy_deterministic cfgRolling cfgRollingAlt parseCutFix parseCutAltFix nowFix
     "2024-01-01" none rfl rfl⟩

end JobscallMe
